import Mathlib

/-!
Shallow embedding of the Out-of-Band (OOB) invitation and connection-reuse
protocol engine of `aries_cloudagent/protocols/out_of_band/v1_0/manager.py`
(class `OutOfBandManager`).

Modelling conventions:
* the Connection Store is a `List ConnRecord`; per-connection metadata is an
  association list `List (String × String)` with `metadata_get` / `metadata_set`
  / `metadata_delete` mirroring `ConnRecord.metadata_*`;
* stateful methods become pure functions threading the store explicitly and
  emitting an event list for the outbound sends and external-manager calls
  they perform;
* external collaborators (DID resolver, handshake strategy managers,
  credential and presentation managers, responder) are oracles carried in an
  environment record: the embedding records what the engine hands them and
  what record, if any, they return;
* the bounded reuse wait (`asyncio.wait_for(check_reuse_msg_state(..), 15)`)
  is modelled by the environment field `peer_reuse_reply`: the value, if any,
  that the peer-side handler writes to the `reuse_msg_state` metadata key
  within the 15-unit bound.  The polling loop of `check_reuse_msg_state`
  terminates exactly when that key differs from `"initial"`, so the timeout
  branch is taken exactly when the key still reads `"initial"` afterwards.
-/

namespace Aries

/-- Ambient profile settings consulted by the manager
(`self.profile.settings.get(...)` and `self.profile.context.settings.get(...)`). -/
structure Settings where
  auto_accept_requests : Bool
  auto_accept_invites : Bool
  auto_respond_credential_offer : Bool
  auto_respond_presentation_request : Bool
  public_invites : Bool
  default_label : Option String
  default_endpoint : Option String
  deriving DecidableEq, Repr

/-- The fields of `ConnRecord` the OOB manager reads or writes: identity,
lifecycle state, the tag/filter columns used by `find_existing_connection`,
and the metadata map used as the reuse-protocol side channel. -/
structure ConnRecord where
  connection_id : Nat
  state : String
  their_public_did : Option String
  invitation_msg_id : Option String
  their_did : Option String
  metadata : List (String × String)
  deriving DecidableEq, Repr

/-- `ConnRecord.metadata_get(session, key)`: value stored under `key`, if any. -/
def metadata_get (r : ConnRecord) (k : String) : Option String :=
  r.metadata.lookup k

/-- `ConnRecord.metadata_set(session, key, value)`: store `value` under `key`,
replacing an existing entry. -/
def metadata_set (r : ConnRecord) (k v : String) : ConnRecord :=
  { r with metadata := (k, v) :: r.metadata.filter (fun p => p.1 != k) }

/-- `ConnRecord.metadata_delete(session, key)`: remove the entry under `key`. -/
def metadata_delete (r : ConnRecord) (k : String) : ConnRecord :=
  { r with metadata := r.metadata.filter (fun p => p.1 != k) }

@[simp] theorem metadata_set_connection_id (r : ConnRecord) (k v : String) :
    (metadata_set r k v).connection_id = r.connection_id := rfl

@[simp] theorem metadata_set_state (r : ConnRecord) (k v : String) :
    (metadata_set r k v).state = r.state := rfl

@[simp] theorem metadata_set_their_public_did (r : ConnRecord) (k v : String) :
    (metadata_set r k v).their_public_did = r.their_public_did := rfl

@[simp] theorem metadata_set_invitation_msg_id (r : ConnRecord) (k v : String) :
    (metadata_set r k v).invitation_msg_id = r.invitation_msg_id := rfl

@[simp] theorem metadata_set_their_did (r : ConnRecord) (k v : String) :
    (metadata_set r k v).their_did = r.their_did := rfl

@[simp] theorem metadata_delete_connection_id (r : ConnRecord) (k : String) :
    (metadata_delete r k).connection_id = r.connection_id := rfl

@[simp] theorem metadata_delete_state (r : ConnRecord) (k : String) :
    (metadata_delete r k).state = r.state := rfl

@[simp] theorem metadata_delete_their_public_did (r : ConnRecord) (k : String) :
    (metadata_delete r k).their_public_did = r.their_public_did := rfl

@[simp] theorem metadata_delete_invitation_msg_id (r : ConnRecord) (k : String) :
    (metadata_delete r k).invitation_msg_id = r.invitation_msg_id := rfl

@[simp] theorem metadata_delete_their_did (r : ConnRecord) (k : String) :
    (metadata_delete r k).their_did = r.their_did := rfl

theorem lookup_filter_ne (l : List (String × String)) (k q : String) (h : q ≠ k) :
    (l.filter (fun p => p.1 != k)).lookup q = l.lookup q := by
  induction l with
  | nil => rfl
  | cons p t ih =>
    obtain ⟨pk, pv⟩ := p
    by_cases hp : pk = k
    · subst hp
      have hq : (q == pk) = false := by simpa using h
      simp [List.filter_cons, List.lookup, hq, ih]
    · by_cases hq : q = pk
      · simp [List.filter_cons, show (pk != k) = true by simpa using hp, List.lookup, hq]
      · have hqb : (q == pk) = false := by simpa using hq
        simp [List.filter_cons, show (pk != k) = true by simpa using hp, List.lookup, hqb, ih]

@[simp] theorem metadata_get_set_same (r : ConnRecord) (k v : String) :
    metadata_get (metadata_set r k v) k = some v := by
  simp [metadata_get, metadata_set, List.lookup]

theorem metadata_get_set_ne (r : ConnRecord) (k v q : String) (h : q ≠ k) :
    metadata_get (metadata_set r k v) q = metadata_get r q := by
  simp [metadata_get, metadata_set, List.lookup, show (q == k) = false by simpa using h]
  exact lookup_filter_ne r.metadata k q h

theorem lookup_filter_self (l : List (String × String)) (k : String) :
    (l.filter (fun p => p.1 != k)).lookup k = none := by
  induction l with
  | nil => rfl
  | cons p t ih =>
    obtain ⟨pk, pv⟩ := p
    by_cases hp : pk = k
    · simpa [List.filter_cons, hp] using ih
    · have hq : (k == pk) = false := by
        simp only [beq_eq_false_iff_ne, ne_eq]
        exact fun hk => hp hk.symm
      simpa [List.filter_cons, show (pk != k) = true by simpa using hp, List.lookup, hq] using ih

@[simp] theorem metadata_get_delete_same (r : ConnRecord) (k : String) :
    metadata_get (metadata_delete r k) k = none := by
  simpa [metadata_get, metadata_delete] using lookup_filter_self r.metadata k

theorem metadata_get_delete_ne (r : ConnRecord) (k q : String) (h : q ≠ k) :
    metadata_get (metadata_delete r k) q = metadata_get r q := by
  simpa [metadata_get, metadata_delete] using lookup_filter_ne r.metadata k q h

/-- The tag filter used by the OOB manager (only `their_did` is ever used). -/
structure TagFilter where
  their_did : Option String
  deriving DecidableEq, Repr

/-- The positive post filter used by the OOB manager
(`their_public_did` and `invitation_msg_id` are the only columns used). -/
structure PostFilter where
  their_public_did : Option String
  invitation_msg_id : Option String
  deriving DecidableEq, Repr

/-- Whether a record satisfies the tag filter and the positive post filter
of `ConnRecord.query`. -/
def matchesFilter (tf : TagFilter) (pf : PostFilter) (c : ConnRecord) : Bool :=
  (match tf.their_did with
   | none => true
   | some d => c.their_did == some d)
  &&
  (match pf.their_public_did with
   | none => true
   | some d => c.their_public_did == some d)
  &&
  (match pf.invitation_msg_id with
   | none => true
   | some i => c.invitation_msg_id == some i)

/-- `OutOfBandManager.find_existing_connection`: query the store, then return
the first record in state `"active"`, or `none`. -/
def find_existing_connection (store : List ConnRecord) (tf : TagFilter) (pf : PostFilter) :
    Option ConnRecord :=
  let conn_records := store.filter (matchesFilter tf pf)
  (conn_records.filter (fun c => c.state == "active")).head?

/-- Persisting a mutated record (`conn_rec.save` / `metadata_*` inside a session):
replace the record with the same `connection_id`. -/
def update_record (store : List ConnRecord) (r : ConnRecord) : List ConnRecord :=
  store.map (fun c => if c.connection_id = r.connection_id then r else c)

@[simp] theorem update_record_map_id (store : List ConnRecord) (r : ConnRecord) :
    (update_record store r).map ConnRecord.connection_id
      = store.map ConnRecord.connection_id := by
  induction store with
  | nil => rfl
  | cons c t ih =>
    simp only [update_record, List.map_cons] at *
    refine congrArg₂ _ ?_ ih
    by_cases h : c.connection_id = r.connection_id <;> simp [h]

theorem find_eq_head_filter (store : List ConnRecord) (tf : TagFilter) (pf : PostFilter) :
    find_existing_connection store tf pf
      = (store.filter (fun c => (c.state == "active") && matchesFilter tf pf c)).head? := by
  simp [find_existing_connection, List.filter_filter]

theorem find_existing_props {store : List ConnRecord} {tf : TagFilter} {pf : PostFilter}
    {r : ConnRecord} (hfind : find_existing_connection store tf pf = some r) :
    r ∈ store ∧ matchesFilter tf pf r = true ∧ r.state = "active" := by
  rw [find_eq_head_filter] at hfind
  cases hl : store.filter (fun c => (c.state == "active") && matchesFilter tf pf c) with
  | nil => simp [hl] at hfind
  | cons a t =>
    rw [hl] at hfind
    simp only [List.head?_cons, Option.some.injEq] at hfind
    have hmem : r ∈ store.filter (fun c => (c.state == "active") && matchesFilter tf pf c) := by
      rw [hl, ← hfind]; exact List.mem_cons_self _ _
    rcases List.mem_filter.mp hmem with ⟨hs, hp⟩
    simp only [Bool.and_eq_true, beq_iff_eq] at hp
    exact ⟨hs, hp.2, hp.1⟩

theorem head_filter_update (l : List ConnRecord) (P : ConnRecord → Bool) (r r2 : ConnRecord)
    (hnd : (l.map ConnRecord.connection_id).Nodup)
    (hfind : (l.filter P).head? = some r)
    (hid : r2.connection_id = r.connection_id)
    (hP : P r2 = P r) :
    ((l.map (fun c => if c.connection_id = r2.connection_id then r2 else c)).filter P).head?
      = some r2 := by
  induction l with
  | nil => simp at hfind
  | cons c cs ih =>
    simp only [List.map_cons, List.nodup_cons] at hnd
    by_cases hc : P c = true
    · rw [List.filter_cons_of_pos hc] at hfind
      simp only [List.head?_cons, Option.some.injEq] at hfind
      have hcid : c.connection_id = r2.connection_id := by rw [hid, ← hfind]
      simp only [List.map_cons, if_pos hcid]
      have hP2 : P r2 = true := by rw [hP, ← hfind]; exact hc
      rw [List.filter_cons_of_pos hP2]
      rfl
    · have hcb : P c = false := by simpa using hc
      rw [List.filter_cons_of_neg (by simp [hcb])] at hfind
      have hrmem : r ∈ cs := by
        cases hl : cs.filter P with
        | nil => rw [hl] at hfind; simp at hfind
        | cons a t =>
          rw [hl] at hfind
          simp only [List.head?_cons, Option.some.injEq] at hfind
          have : r ∈ cs.filter P := by rw [hl, ← hfind]; exact List.mem_cons_self _ _
          exact (List.mem_filter.mp this).1
      have hne : c.connection_id ≠ r2.connection_id := by
        rw [hid]
        intro hcontra
        exact hnd.1 (hcontra ▸ List.mem_map_of_mem ConnRecord.connection_id hrmem)
      simp only [List.map_cons, if_neg hne]
      rw [List.filter_cons_of_neg (by simp [hcb])]
      exact ih hnd.2 hfind

theorem find_existing_update (store : List ConnRecord) (tf : TagFilter) (pf : PostFilter)
    (r r2 : ConnRecord)
    (hnd : (store.map ConnRecord.connection_id).Nodup)
    (hfind : find_existing_connection store tf pf = some r)
    (hid : r2.connection_id = r.connection_id)
    (hdid : r2.their_did = r.their_did)
    (hpd : r2.their_public_did = r.their_public_did)
    (him : r2.invitation_msg_id = r.invitation_msg_id)
    (hst : r2.state = r.state) :
    find_existing_connection (update_record store r2) tf pf = some r2 := by
  rw [find_eq_head_filter] at hfind ⊢
  exact head_filter_update store _ r r2 hnd hfind hid
    (by simp [matchesFilter, hdid, hpd, him, hst])

theorem mem_update_record_self {store : List ConnRecord} {c r2 : ConnRecord}
    (hmem : c ∈ store) (hid : c.connection_id = r2.connection_id) :
    r2 ∈ update_record store r2 :=
  List.mem_map.mpr ⟨c, hmem, by rw [if_pos hid]⟩

/-- The two supported handshake protocols (`HSProto.RFC23` = DID-exchange,
`HSProto.RFC160` = legacy connections). -/
inductive HSProto
  | RFC23
  | RFC160
  deriving DecidableEq, Repr

/-- Modelled from the spec: the protocol-identifier names of the two supported
handshake protocols (module `messages/invitation.py` is not part of the
sampled source). -/
def HSProto.name : HSProto → String
  | .RFC23 => "didexchange/1.0"
  | .RFC160 => "connections/1.0"

/-- Modelled from the spec: `HSProto.get` maps an unqualified protocol
identifier back to the protocol, `none` for an unrecognized identifier. -/
def HSProto.get (s : String) : Option HSProto :=
  if s = "didexchange/1.0" then some HSProto.RFC23
  else if s = "connections/1.0" then some HSProto.RFC160
  else none

/-- Modelled from the spec: the old DIDComm message-type qualification root
(`DIDCommPrefix.OLD`, module `didcomm_prefix.py` is not part of the sampled
source). -/
def DIDCOMM_OLD : String := "did:sov:BzCbsNYhMrjHiqZDTUASHg;spec"

/-- Modelled from the spec: the current DIDComm message-type qualification
root (`DIDCommPrefix.NEW`). -/
def DIDCOMM_NEW : String := "https://didcomm.org"

/-- Modelled from the spec: `DIDCommPrefix.qualify_current`. -/
def didcomm_qualify_current (msg_type : String) : String :=
  DIDCOMM_NEW ++ "/" ++ msg_type

/-- Strip a leading root from a character list, `none` when it is not a
leading root. -/
def strip_root (root s : List Char) : Option (List Char) :=
  match root, s with
  | [], rest => some rest
  | _ :: _, [] => none
  | c :: cs, d :: ds => if c = d then strip_root cs ds else none

/-- Modelled from the spec: `DIDCommPrefix.unqualify` strips either
recognized qualification root from a message type. -/
def didcomm_unqualify (qualified : String) : String :=
  match strip_root (DIDCOMM_OLD ++ "/").data qualified.data with
  | some rest => String.mk rest
  | none =>
    match strip_root (DIDCOMM_NEW ++ "/").data qualified.data with
    | some rest => String.mk rest
    | none => qualified

/-- Modelled from the spec: `DIDKey.from_public_key_b58(key, ED25519).did`
turns a raw base58 verification key into its did:key identifier
(module `did/did_key.py` is not part of the sampled source). -/
def didkey_from_public_key_b58 (key : String) : String :=
  "did:key:z" ++ key

/-- Modelled from the spec: `DIDKey.from_did(did).public_key_b58` recovers the
raw verification key from a did:key identifier. -/
def didkey_from_did (did : String) : String :=
  String.mk (did.data.drop 9)

/-- Python `str.split(":")` on a character list. -/
def split_on_colon : List Char → List (List Char)
  | [] => [[]]
  | c :: rest =>
    if c = ':' then [] :: split_on_colon rest
    else
      match split_on_colon rest with
      | [] => [[c]]
      | h :: t => (c :: h) :: t

/-- Python `service_did.split(":")[-1]`: the component after the last colon. -/
def split_colon_last (s : String) : String :=
  String.mk ((split_on_colon s.data).getLastD [])

/-- `dict.fromkeys`-style deduplication preserving first occurrences,
as used on the unqualified handshake protocol list. -/
def dedup_keep_first (l : List String) : List String :=
  go [] l
where
  go (seen : List String) : List String → List String
    | [] => []
    | x :: xs => if seen.contains x then go seen xs else x :: go (x :: seen) xs

theorem dedup_keep_first_eq_nil_iff (l : List String) :
    dedup_keep_first l = [] ↔ l = [] := by
  cases l <;> simp [dedup_keep_first, dedup_keep_first.go]

/-- `PRESENTATION_REQUEST` of `present_proof.v1_0.message_types`
(modelled from the spec: module not part of the sampled source). -/
def PRESENTATION_REQUEST : String := "present-proof/1.0/request-presentation"

/-- `PRES_20_REQUEST` of `present_proof.v2_0.message_types` (modelled from the
spec). -/
def PRES_20_REQUEST : String := "present-proof/2.0/request-presentation"

/-- `CREDENTIAL_OFFER` of `issue_credential.v1_0.message_types` (modelled from
the spec). -/
def CREDENTIAL_OFFER : String := "issue-credential/1.0/offer-credential"

/-- `CRED_20_OFFER` of `issue_credential.v2_0.message_types` (modelled from
the spec). -/
def CRED_20_OFFER : String := "issue-credential/2.0/offer-credential"

/-- The error kinds signalled by the manager.  Every raise site of
`OutOfBandManagerError` in the source is mapped to the kind the spec
taxonomy (section 7) assigns to it, keeping the source message text. -/
inductive OOBError
  | invalidInvitationShape (msg : String)
  | unknownAttachmentType (msg : String)
  | unsupportedAttachmentType (msg : String)
  | configurationRejected (msg : String)
  | autoRespondDisabled (msg : String)
  | cannotAutoPresent (msg : String)
  | noExistingConnection (msg : String)
  | reuseNegotiationFailed (msg : String)
  | noHandshakeProtocolAvailable (msg : String)
  | malformedAttachment (msg : String)
  | storageNotFound (msg : String)
  deriving DecidableEq, Repr

/-- Observable actions of the engine: outbound sends through the responder
and invocations of the external exchange / handshake managers. -/
inductive Event
  | sent_reuse (thid : String) (pthid : Option String) (conn_id : Nat)
  | sent_reuse_accept (thid pthid : String) (conn_id : Nat)
  | called_didx (invitation_id : String) (their_public_did : Option String)
      (auto_accept : Option Bool) (conn_alias mediation_id : Option String)
  | called_connmgr (invitation_id : String) (recipient_keys routing_keys : List String)
      (their_public_did : Option String) (auto_accept : Option Bool)
      (conn_alias mediation_id : Option String)
  | received_offer_v1 (cred_ex_id : Nat) (conn_id : Nat)
  | received_offer_v2 (cred_ex_id : Nat) (conn_id : Nat)
  | sent_cred_request_v1 (cred_ex_id : Nat)
  | sent_cred_request_v2 (cred_ex_id : Nat)
  | received_pres_request_v1 (pres_ex_id : Nat) (conn_id : Nat)
  | received_pres_request_v2 (pres_ex_id : Nat) (conn_id : Nat)
  | sent_presentation_v1 (pres_ex_id : Nat)
  | sent_presentation_v2 (pres_ex_id : Nat)
  deriving DecidableEq, Repr

/-- An inline service block of an OOB invitation (`ServiceMessage`). -/
structure ServiceMessage where
  recipient_keys : List String
  routing_keys : List String
  service_endpoint : String
  deriving DecidableEq, Repr

/-- A service entry of an invitation: inline block or bare DID reference. -/
inductive OOBService
  | inline (svc : ServiceMessage)
  | didRef (did : String)
  deriving DecidableEq, Repr

/-- A `requests~attach` entry: a proper `AttachDecorator` (with or without
data, and the `@type` of its content), or a malformed entry. -/
inductive ReqAttach
  | proper (hasData : Bool) (atype : String)
  | malformed
  deriving DecidableEq, Repr

/-- An `InvitationMessage` as received. -/
structure Invitation where
  id : String
  handshake_protocols : List String
  requests_attach : List ReqAttach
  services : List OOBService
  deriving DecidableEq, Repr

/-- `asyncio.wait_for(check_reuse_msg_state(..), 15)`: bound of the reuse wait. -/
def REUSE_WAIT_BOUND : Nat := 15

/-- `asyncio.wait_for(conn_rec_is_active(..), 7)`: bound of the activation wait. -/
def CONN_ACTIVE_WAIT_BOUND : Nat := 7

/-- Environment of a `receive_invitation` run: the ambient settings and the
behaviour of the external collaborators during this receipt.
`peer_reuse_reply` is the value the peer-side reuse handler writes to the
`reuse_msg_state` key within the `REUSE_WAIT_BOUND` window (`none` when no
reuse-accept and no problem report arrives in time); `didx_result` /
`connmgr_result` are the records returned by the corresponding handshake
strategy manager; `active_conn` is the outcome of the bounded
`conn_rec_is_active` wait (`none` when it times out). -/
structure RIEnv where
  settings : Settings
  responder_present : Bool
  reuse_msg_fresh_id : String
  peer_reuse_reply : Option String
  resolve_endpoint : String → String
  resolve_recipient_keys : String → List String
  resolve_routing_keys : String → List String
  didx_result : Option ConnRecord
  connmgr_result : Option ConnRecord
  active_conn : Option ConnRecord
  new_cred_ex_id : Nat
  new_pres_ex_id : Nat
  req_creds_ok : Bool

/-- Result of a `receive_invitation` run: final store, emitted events, the
credential-exchange records present afterwards (v1 and v2), and the returned
connection record or raised error.  On an error the store and event list
reflect the effects performed before the raise. -/
structure RIResult where
  store : List ConnRecord
  events : List Event
  cred_ex_v1 : List Nat
  cred_ex_v2 : List Nat
  result : Except OOBError (Option ConnRecord)

/-- The reuse branch of `OutOfBandManager.receive_invitation`
(manager.py lines 470-538), entered when a candidate active connection was
found for the invitation public DID.  Mirrors, in order:
the applicability test (`num_included_protocols >= 1 and
num_included_req_attachments == 0 and use_existing_connection`), the
`create_handshake_reuse_message` call (send plus the two `metadata_set`
writes, both only when a responder is present), the bounded
`check_reuse_msg_state` wait, the post-wait `metadata_delete` of
`reuse_msg_id`, the `not_accepted` discard, the `reuse_msg_state` delete on
the kept branch, and the timeout fallback that deletes both keys and saves
the record in state `abandoned`; finally the defensive second branch that
rejects every combination other than the two remaining permitted ones. -/
def reuse_stage (store : List ConnRecord) (conn_rec : ConnRecord)
    (num_included_protocols num_included_req_attachments : Nat)
    (use_existing_connection : Bool) (env : RIEnv) :
    List ConnRecord × List Event × Option ConnRecord :=
  if 1 ≤ num_included_protocols ∧ num_included_req_attachments = 0
      ∧ use_existing_connection = true then
    let r1 := if env.responder_present then
        metadata_set (metadata_set conn_rec "reuse_msg_id" env.reuse_msg_fresh_id)
          "reuse_msg_state" "initial"
      else conn_rec
    let evs := if env.responder_present then
        [Event.sent_reuse env.reuse_msg_fresh_id conn_rec.invitation_msg_id
          conn_rec.connection_id]
      else []
    let store1 := update_record store r1
    let r2 := match env.peer_reuse_reply with
      | some s => metadata_set r1 "reuse_msg_state" s
      | none => r1
    let store2 := update_record store1 r2
    if metadata_get r2 "reuse_msg_state" = some "initial" then
      let r3 := { metadata_delete (metadata_delete r2 "reuse_msg_id") "reuse_msg_state" with
        state := "abandoned" }
      (update_record store2 r3, evs, none)
    else
      let r3 := metadata_delete r2 "reuse_msg_id"
      if metadata_get r3 "reuse_msg_state" = some "not_accepted" then
        (update_record store2 r3, evs, none)
      else
        let r4 := metadata_delete r3 "reuse_msg_state"
        (update_record store2 r4, evs, some r4)
  else if ¬ ((num_included_protocols = 0 ∧ 1 ≤ num_included_req_attachments
        ∧ use_existing_connection = true)
      ∨ (1 ≤ num_included_protocols ∧ 1 ≤ num_included_req_attachments
        ∧ use_existing_connection = true)) then
    (store, [], none)
  else
    (store, [], some conn_rec)

/-- The new-connection loop of `receive_invitation` (lines 545-583): try the
unqualified handshake protocols in order; `RFC23` invokes
`DIDXManager.receive_invitation`, `RFC160` first rewrites the service keys
from did:key identifiers back to base58 keys, then invokes
`ConnectionManager.receive_invitation`; an unrecognized entry (where
`HSProto.get` returned `None`) invokes nothing; the loop stops at the first
strategy returning a record. -/
def handshake_loop (env : RIEnv) (invitation_id : String) (public_did : Option String)
    (auto_accept : Option Bool) (conn_alias mediation_id : Option String) :
    ServiceMessage → List (Option HSProto) → ServiceMessage × Option ConnRecord × List Event
  | service, [] => (service, none, [])
  | service, some HSProto.RFC23 :: rest =>
    let ev := Event.called_didx invitation_id public_did auto_accept conn_alias mediation_id
    match env.didx_result with
    | some r => (service, some r, [ev])
    | none =>
      let t := handshake_loop env invitation_id public_did auto_accept conn_alias
        mediation_id service rest
      (t.1, t.2.1, ev :: t.2.2)
  | service, some HSProto.RFC160 :: rest =>
    let service2 : ServiceMessage := { service with
      recipient_keys := service.recipient_keys.map didkey_from_did,
      routing_keys := service.routing_keys.map didkey_from_did }
    let ev := Event.called_connmgr invitation_id service2.recipient_keys
      service2.routing_keys public_did auto_accept conn_alias mediation_id
    match env.connmgr_result with
    | some r => (service2, some r, [ev])
    | none =>
      let t := handshake_loop env invitation_id public_did auto_accept conn_alias
        mediation_id service2 rest
      (t.1, t.2.1, ev :: t.2.2)
  | service, none :: rest =>
    handshake_loop env invitation_id public_did auto_accept conn_alias mediation_id
      service rest

/-- Modelled from the spec: `ConnRecord.is_ready` (module
`connections/models/conn_record.py` is not part of the sampled source); the
spec (section 4.5) gates the automatic credential request on the connection
having become active. -/
def is_ready (r : ConnRecord) : Bool :=
  r.state == "active"

/-- `OutOfBandManager._process_cred_offer_v1` (lines 808-850): receive the
offer through the v1 credential manager (persisting a new exchange record),
then either auto-respond (only when the connection is ready and a responder
is present) or raise the auto-respond-disabled error. -/
def process_cred_offer_v1 (env : RIEnv) (conn_rec : ConnRecord) (cred_ex_v1 : List Nat) :
    List Nat × List Event × Option OOBError :=
  let cred_ex_after := env.new_cred_ex_id :: cred_ex_v1
  let evs := [Event.received_offer_v1 env.new_cred_ex_id conn_rec.connection_id]
  if env.settings.auto_respond_credential_offer = true then
    if is_ready conn_rec = true ∧ env.responder_present = true then
      (cred_ex_after, evs ++ [Event.sent_cred_request_v1 env.new_cred_ex_id], none)
    else
      (cred_ex_after, evs, none)
  else
    (cred_ex_after, evs,
      some (OOBError.autoRespondDisabled
        "Configuration sets auto_offer false: cannot respond automatically to credential offers"))

/-- `OutOfBandManager._process_cred_offer_v2` (lines 852-894): as the v1
variant, through the v2 credential manager. -/
def process_cred_offer_v2 (env : RIEnv) (conn_rec : ConnRecord) (cred_ex_v2 : List Nat) :
    List Nat × List Event × Option OOBError :=
  let cred_ex_after := env.new_cred_ex_id :: cred_ex_v2
  let evs := [Event.received_offer_v2 env.new_cred_ex_id conn_rec.connection_id]
  if env.settings.auto_respond_credential_offer = true then
    if is_ready conn_rec = true ∧ env.responder_present = true then
      (cred_ex_after, evs ++ [Event.sent_cred_request_v2 env.new_cred_ex_id], none)
    else
      (cred_ex_after, evs, none)
  else
    (cred_ex_after, evs,
      some (OOBError.autoRespondDisabled
        "Configuration sets auto_offer false: cannot respond automatically to credential offers"))

/-- `OutOfBandManager._process_pres_request_v1` (lines 661-745): receive the
request, then auto-present when configured (building the requested
credentials can fail, surfacing the cannot-auto-present error), otherwise
raise the auto-respond-disabled error. -/
def process_pres_request_v1 (env : RIEnv) (conn_rec : ConnRecord) :
    List Event × Option OOBError :=
  let evs := [Event.received_pres_request_v1 env.new_pres_ex_id conn_rec.connection_id]
  if env.settings.auto_respond_presentation_request = true then
    if env.req_creds_ok = true then
      if env.responder_present = true then
        (evs ++ [Event.sent_presentation_v1 env.new_pres_ex_id], none)
      else (evs, none)
    else
      (evs, some (OOBError.cannotAutoPresent
        "Cannot auto-respond to presentation request attachment"))
  else
    (evs, some (OOBError.autoRespondDisabled
      "Configuration sets auto_present false: cannot respond automatically to presentation requests"))

/-- `OutOfBandManager._process_pres_request_v2` (lines 747-806): as the v1
variant, without the requested-credentials construction step. -/
def process_pres_request_v2 (env : RIEnv) (conn_rec : ConnRecord) :
    List Event × Option OOBError :=
  let evs := [Event.received_pres_request_v2 env.new_pres_ex_id conn_rec.connection_id]
  if env.settings.auto_respond_presentation_request = true then
    if env.responder_present = true then
      (evs ++ [Event.sent_presentation_v2 env.new_pres_ex_id], none)
    else (evs, none)
  else
    (evs, some (OOBError.autoRespondDisabled
      "Configuration set auto_present false: cannot respond automatically to presentation requests"))

/-- The attachment-dispatch tail of `receive_invitation` (lines 586-659):
processed only when the invitation carries at least one attachment and a
connection is at hand; only the first attachment is inspected; a
non-`AttachDecorator` entry raises the malformed-attachment error; an entry
without data is skipped silently; otherwise the unqualified content type
selects the handler, with the bounded activation wait before the two
credential-offer handlers when auto-accept applies; an unrecognized type
raises the unsupported-type error. -/
def attach_stage (store : List ConnRecord) (events : List Event)
    (cred_ex_v1 cred_ex_v2 : List Nat) (requests_attach : List ReqAttach)
    (conn_rec : Option ConnRecord) (auto_accept : Option Bool) (env : RIEnv) : RIResult :=
  match requests_attach, conn_rec with
  | req_attach :: _, some conn =>
    match req_attach with
    | ReqAttach.malformed =>
      ⟨store, events, cred_ex_v1, cred_ex_v2,
        Except.error (OOBError.malformedAttachment
          "requests~attach is not properly formatted")⟩
    | ReqAttach.proper hasData atype =>
      if hasData = true then
        let unq_req_attach_type := didcomm_unqualify atype
        if unq_req_attach_type = PRESENTATION_REQUEST then
          let pr := process_pres_request_v1 env conn
          match pr.2 with
          | some e => ⟨store, events ++ pr.1, cred_ex_v1, cred_ex_v2, Except.error e⟩
          | none => ⟨store, events ++ pr.1, cred_ex_v1, cred_ex_v2, Except.ok (some conn)⟩
        else if unq_req_attach_type = PRES_20_REQUEST then
          let pr := process_pres_request_v2 env conn
          match pr.2 with
          | some e => ⟨store, events ++ pr.1, cred_ex_v1, cred_ex_v2, Except.error e⟩
          | none => ⟨store, events ++ pr.1, cred_ex_v1, cred_ex_v2, Except.ok (some conn)⟩
        else if unq_req_attach_type = CREDENTIAL_OFFER then
          let conn2 := if auto_accept.getD false || env.settings.auto_accept_invites then
              match env.active_conn with
              | some r => r
              | none => conn
            else conn
          let co := process_cred_offer_v1 env conn2 cred_ex_v1
          match co.2.2 with
          | some e => ⟨store, events ++ co.2.1, co.1, cred_ex_v2, Except.error e⟩
          | none => ⟨store, events ++ co.2.1, co.1, cred_ex_v2, Except.ok (some conn2)⟩
        else if unq_req_attach_type = CRED_20_OFFER then
          let conn2 := if auto_accept.getD false || env.settings.auto_accept_invites then
              match env.active_conn with
              | some r => r
              | none => conn
            else conn
          let co := process_cred_offer_v2 env conn2 cred_ex_v2
          match co.2.2 with
          | some e => ⟨store, events ++ co.2.1, cred_ex_v1, co.1, Except.error e⟩
          | none => ⟨store, events ++ co.2.1, cred_ex_v1, co.1, Except.ok (some conn2)⟩
        else
          ⟨store, events, cred_ex_v1, cred_ex_v2,
            Except.error (OOBError.unsupportedAttachmentType
              "Unsupported requests~attach type")⟩
      else ⟨store, events, cred_ex_v1, cred_ex_v2, Except.ok (some conn)⟩
  | _, _ => ⟨store, events, cred_ex_v1, cred_ex_v2, Except.ok conn_rec⟩

/-- `OutOfBandManager.receive_invitation` (lines 379-659): service-array
cardinality check, handshake/attachment shape check, service resolution
(a DID reference resolves through `resolve_invitation` and yields the public
DID as the last `:`-separated component), unqualification and deduplication
of the handshake protocols, candidate lookup by `their_public_did`, the
reuse branch, the new-connection loop, and the attachment dispatch. -/
def receive_invitation (store : List ConnRecord) (invitation : Invitation)
    (use_existing_connection : Bool) (auto_accept : Option Bool)
    (conn_alias mediation_id : Option String)
    (cred_ex_v1 cred_ex_v2 : List Nat) (env : RIEnv) : RIResult :=
  match invitation.services with
  | [oob_service_item] =>
    if invitation.requests_attach.isEmpty && invitation.handshake_protocols.isEmpty then
      ⟨store, [], cred_ex_v1, cred_ex_v2,
        Except.error (OOBError.invalidInvitationShape
          "Invitation must specify handshake_protocols, requests_attach, or both")⟩
    else
      let sp : ServiceMessage × Option String :=
        match oob_service_item with
        | OOBService.inline svc => (svc, none)
        | OOBService.didRef service_did =>
          (⟨(env.resolve_recipient_keys service_did).map didkey_from_public_key_b58,
            (env.resolve_routing_keys service_did).map didkey_from_public_key_b58,
            env.resolve_endpoint service_did⟩,
           some (split_colon_last service_did))
      let service := sp.1
      let public_did := sp.2
      let unq_handshake_protos :=
        (dedup_keep_first (invitation.handshake_protocols.map didcomm_unqualify)).map
          HSProto.get
      let conn_rec0 : Option ConnRecord :=
        match public_did with
        | some d =>
          find_existing_connection store ⟨none⟩ ⟨some d, none⟩
        | none => none
      let st1 : List ConnRecord × List Event × Option ConnRecord :=
        match conn_rec0 with
        | some cr =>
          reuse_stage store cr unq_handshake_protos.length
            invitation.requests_attach.length use_existing_connection env
        | none => (store, [], none)
      let store1 := st1.1
      let events1 := st1.2.1
      match st1.2.2 with
      | some cr =>
        attach_stage store1 events1 cred_ex_v1 cred_ex_v2 invitation.requests_attach
          (some cr) auto_accept env
      | none =>
        if unq_handshake_protos.isEmpty then
          ⟨store1, events1, cred_ex_v1, cred_ex_v2,
            Except.error (OOBError.noHandshakeProtocolAvailable
              "No existing connection exists and handshake_protocol is missing")⟩
        else
          let hw := handshake_loop env invitation.id public_did auto_accept conn_alias
            mediation_id service unq_handshake_protos
          let store2 := match hw.2.1 with
            | some r => store1 ++ [r]
            | none => store1
          attach_stage store2 (events1 ++ hw.2.2) cred_ex_v1 cred_ex_v2
            invitation.requests_attach hw.2.1 auto_accept env
  | _ =>
    ⟨store, [], cred_ex_v1, cred_ex_v2,
      Except.error (OOBError.invalidInvitationShape
        "service array must have exactly one element")⟩

/-- `OutOfBandManager.receive_reuse_message` (lines 1015-1097): look the
connection up by the `invitation_msg_id` post filter taken from the thread
`pthid`; when found, send a `HandshakeReuseAccept` threaded to the reuse
message `thid`; when not found, fall back to the `their_did` tag filter with
the receipt sender DID and, when that finds a record, send the same
acceptance; when neither lookup finds a record the function returns without
sending and without raising (the `except StorageNotFoundError` translation
is unreachable from these lookups, which return `None` instead of raising). -/
def receive_reuse_message (store : List ConnRecord) (thid pthid sender_did : String)
    (responder_present : Bool) : List Event × Option OOBError :=
  let invi_msg_id := pthid
  let reuse_msg_id := thid
  match find_existing_connection store ⟨none⟩ ⟨none, some invi_msg_id⟩ with
  | some conn_record =>
    (if responder_present then
        [Event.sent_reuse_accept reuse_msg_id invi_msg_id conn_record.connection_id]
      else [], none)
  | none =>
    match find_existing_connection store ⟨some sender_did⟩ ⟨none, none⟩ with
    | some conn_record =>
      (if responder_present then
          [Event.sent_reuse_accept reuse_msg_id invi_msg_id conn_record.connection_id]
        else [], none)
    | none => ([], none)

/-- `OutOfBandManager.receive_reuse_accepted_message` (lines 1099-1141):
assert that the inbound thread id equals the stored `reuse_msg_id`, then set
`reuse_msg_state` to `"accepted"`; a failed assertion is caught and
re-raised as a manager error, leaving the record unchanged. -/
def receive_reuse_accepted_message (conn_record : ConnRecord)
    (thread_reuse_msg_id : String) : ConnRecord × Option OOBError :=
  let conn_reuse_msg_id := metadata_get conn_record "reuse_msg_id"
  if conn_reuse_msg_id = some thread_reuse_msg_id then
    (metadata_set conn_record "reuse_msg_state" "accepted", none)
  else
    (conn_record,
      some (OOBError.reuseNegotiationFailed "Error processing reuse accepted message"))

/-- `OutOfBandManager.receive_problem_report` (lines 1143-1185): assert that
the inbound thread id equals the stored `reuse_msg_id`, then set
`reuse_msg_state` to `"not_accepted"`; a failed assertion is caught and
re-raised as a manager error, leaving the record unchanged. -/
def receive_problem_report (conn_record : ConnRecord)
    (thread_reuse_msg_id : String) : ConnRecord × Option OOBError :=
  let conn_reuse_msg_id := metadata_get conn_record "reuse_msg_id"
  if conn_reuse_msg_id = some thread_reuse_msg_id then
    (metadata_set conn_record "reuse_msg_state" "not_accepted", none)
  else
    (conn_record,
      some (OOBError.reuseNegotiationFailed "Error processing problem report message"))

/-- An attachment reference passed to `create_invitation`
(a dict of the form `{"id": .., "type": ..}`). -/
structure AttachRef where
  a_type : Option String
  a_id : String
  deriving DecidableEq, Repr

/-- The mediation data `create_invitation` reads off a mediation record. -/
structure MediationInfo where
  mediation_id : String
  connection_id : Nat
  routing_keys : List String
  endpoint : String
  deriving DecidableEq, Repr

/-- The public DID information returned by `wallet.get_public_did`. -/
structure PublicDidInfo where
  did : String
  verkey : String
  deriving DecidableEq, Repr

/-- Environment of a `create_invitation` run: ambient settings and the
external stores and wallet.  The four lookup oracles model
`V10CredentialExchange` / `V20CredExRecord` / `V10PresentationExchange` /
`V20PresExRecord` `.retrieve_by_id`, returning the serialized offer or
request when the record exists. -/
structure CIEnv where
  settings : Settings
  public_did : Option PublicDidInfo
  new_connection_key : String
  invi_msg_fresh_id : String
  mediation_record : Option MediationInfo
  base_mediation_record : Option MediationInfo
  multitenant_active : Bool
  cred_offer_v1 : String → Option String
  cred_offer_v2 : String → Option String
  pres_req_v1 : String → Option String
  pres_req_v2 : String → Option String
  public_endpoint : String → String

/-- The invitation message built by `create_invitation`. -/
structure InvitationOut where
  label : Option String
  handshake_protocols : List String
  requests_attach : List String
  services : List OOBService
  deriving DecidableEq, Repr

/-- The transient `InvitationRecord` returned by `create_invitation`
(never persisted). -/
structure InvitationRecord where
  state : String
  invi_msg_id : String
  invitation : InvitationOut
  invitation_url : String
  deriving DecidableEq, Repr

/-- The attachment-resolution loop of `create_invitation` (lines 160-212):
`credential-offer` references resolve through the v1 store, then the v2
store; `present-proof` references likewise; a missing record raises the
storage error of the second retrieval; any other declared type raises the
unknown-attachment-type error. -/
def resolve_attachments (env : CIEnv) : List AttachRef → Except OOBError (List String)
  | [] => Except.ok []
  | atch :: rest =>
    match atch.a_type with
    | some "credential-offer" =>
      (match env.cred_offer_v1 atch.a_id with
       | some payload => (resolve_attachments env rest).map (fun tail => payload :: tail)
       | none =>
         match env.cred_offer_v2 atch.a_id with
         | some payload => (resolve_attachments env rest).map (fun tail => payload :: tail)
         | none => Except.error (OOBError.storageNotFound "record not found"))
    | some "present-proof" =>
      (match env.pres_req_v1 atch.a_id with
       | some payload => (resolve_attachments env rest).map (fun tail => payload :: tail)
       | none =>
         match env.pres_req_v2 atch.a_id with
         | some payload => (resolve_attachments env rest).map (fun tail => payload :: tail)
         | none => Except.error (OOBError.storageNotFound "record not found"))
    | _ => Except.error (OOBError.unknownAttachmentType "Unknown attachment type")

/-- `OutOfBandManager.create_invitation` (lines 90-377), in source order:
the handshake/attachment shape check, the `accept` computation, the
public+multi-use and public+metadata rejections, attachment resolution, the
qualification of the handshake protocols, then the public-DID path (public
invitations enabled, public DID available, DID-reference service) or the
pairwise path (fresh signing key, base-mediator and mediation-record routing
layering, did:key normalization of routing keys, inline service block).  The
persisted `ConnRecord` and the mediator/multitenant key registrations are
external-store effects not observed by any claim and are not modelled. -/
def create_invitation (env : CIEnv) (my_label my_endpoint : Option String)
    (auto_accept : Option Bool) (public : Bool) (hs_protos : List HSProto)
    (multi_use : Bool) (conn_alias : Option String) (attachments : List AttachRef)
    (metadata : List (String × String)) (mediation_id : Option String) :
    Except OOBError InvitationRecord :=
  if hs_protos = [] ∧ attachments = [] then
    Except.error (OOBError.invalidInvitationShape
      "Invitation must include handshake protocols, request attachments, or both")
  else
    let accept := match auto_accept with
      | some b => b
      | none => env.settings.auto_accept_requests
    if public = true ∧ multi_use = true then
      Except.error (OOBError.configurationRejected
        "Cannot create public invitation with multi_use")
    else if public = true ∧ metadata ≠ [] then
      Except.error (OOBError.configurationRejected
        "Cannot store metadata on public invitations")
    else
      match resolve_attachments env attachments with
      | Except.error e => Except.error e
      | Except.ok message_attachments =>
        let handshake_protocols :=
          hs_protos.map (fun hsp => didcomm_qualify_current hsp.name)
        let label := match my_label with
          | some l => some l
          | none => env.settings.default_label
        if public = true then
          if env.settings.public_invites = false then
            Except.error (OOBError.configurationRejected
              "Public invitations are not enabled")
          else
            match env.public_did with
            | none =>
              Except.error (OOBError.configurationRejected
                "Cannot create public invitation with no public DID")
            | some pd =>
              Except.ok
                { state := "initial"
                  invi_msg_id := env.invi_msg_fresh_id
                  invitation :=
                    { label := label
                      handshake_protocols := handshake_protocols
                      requests_attach := message_attachments
                      services := [OOBService.didRef ("did:sov:" ++ pd.did)] }
                  invitation_url := env.public_endpoint pd.did ++ "?oob=" ++ env.invi_msg_fresh_id }
        else
          let my_endpoint1 := match my_endpoint with
            | some e => some e
            | none => env.settings.default_endpoint
          let base := if env.multitenant_active then env.base_mediation_record else none
          let routing0 : List String := match base with
            | some b => b.routing_keys
            | none => []
          let endpoint0 := match base with
            | some b => some b.endpoint
            | none => my_endpoint1
          let routing1 := match env.mediation_record with
            | some m => routing0 ++ m.routing_keys
            | none => routing0
          let endpoint1 := match env.mediation_record with
            | some m => some m.endpoint
            | none => endpoint0
          let routing_keys := routing1.map (fun key =>
            if (split_on_colon key.data).length = 3 then key
            else didkey_from_public_key_b58 key)
          let svc : ServiceMessage :=
            { recipient_keys := [didkey_from_public_key_b58 env.new_connection_key]
              routing_keys := routing_keys
              service_endpoint := match endpoint1 with | some e => e | none => "" }
          Except.ok
            { state := "initial"
              invi_msg_id := env.invi_msg_fresh_id
              invitation :=
                { label := label
                  handshake_protocols := handshake_protocols
                  requests_attach := message_attachments
                  services := [OOBService.inline svc] }
              invitation_url := "?oob=" ++ env.invi_msg_fresh_id }

/-- Discriminator: is this outcome a `configurationRejected` error? -/
def is_configuration_rejected {α : Type} : Except OOBError α → Bool
  | Except.error (OOBError.configurationRejected _) => true
  | _ => false

/-- Concrete settings with every auto-respond flag off. -/
def demoSettings : Settings :=
  { auto_accept_requests := false
    auto_accept_invites := false
    auto_respond_credential_offer := false
    auto_respond_presentation_request := false
    public_invites := true
    default_label := none
    default_endpoint := none }

/-- A concrete active connection bound to the public DID `PUBDID`. -/
def demoConn : ConnRecord :=
  { connection_id := 7
    state := "active"
    their_public_did := some "PUBDID"
    invitation_msg_id := some "inv-0"
    their_did := some "their-did-1"
    metadata := [] }

/-- A concrete record as returned by a handshake strategy manager. -/
def demoNewConn : ConnRecord :=
  { connection_id := 8
    state := "invitation"
    their_public_did := none
    invitation_msg_id := some "invmsg-1"
    their_did := none
    metadata := [] }

/-- A concrete receive environment: responder present, the peer accepts the
reuse request within the bound, DID-exchange succeeds. -/
def demoEnv : RIEnv :=
  { settings := demoSettings
    responder_present := true
    reuse_msg_fresh_id := "reuse-1"
    peer_reuse_reply := some "accepted"
    resolve_endpoint := fun _ => "http://endpoint"
    resolve_recipient_keys := fun _ => ["RK1"]
    resolve_routing_keys := fun _ => []
    didx_result := some demoNewConn
    connmgr_result := none
    active_conn := none
    new_cred_ex_id := 21
    new_pres_ex_id := 31
    req_creds_ok := true }

/-- A concrete invitation carrying the public DID `PUBDID`, one handshake
protocol and no attachments. -/
def demoInvitation : Invitation :=
  { id := "invmsg-1"
    handshake_protocols := ["https://didcomm.org/didexchange/1.0"]
    requests_attach := []
    services := [OOBService.didRef "did:sov:PUBDID"] }

/-- A connection holding reuse metadata of an in-flight negotiation. -/
def demoConnWithReuse : ConnRecord :=
  { demoConn with metadata := [("reuse_msg_id", "abc"), ("reuse_msg_state", "initial")] }

/-- C1: the reuse branch keeps a candidate only when the caller permits reuse
and the (protocols, attachments) combination is one of the three permitted
shapes; every other combination rejects the candidate outright (store
untouched, nothing sent, candidate treated as absent), and a reuse message
is only ever sent in the protocols-present/no-attachments shape. -/
theorem reuse_attempted_only_for_permitted_shapes
    (store : List ConnRecord) (cr : ConnRecord) (p a : Nat) (u : Bool) (env : RIEnv) :
    (¬ (u = true ∧ ((1 ≤ p ∧ a = 0) ∨ (p = 0 ∧ 1 ≤ a) ∨ (1 ≤ p ∧ 1 ≤ a))) →
      reuse_stage store cr p a u env = (store, [], none))
    ∧ (∀ t pth c, Event.sent_reuse t pth c ∈ (reuse_stage store cr p a u env).2.1 →
      u = true ∧ 1 ≤ p ∧ a = 0) := by
  constructor
  · intro hnot
    have h1 : ¬(1 ≤ p ∧ a = 0 ∧ u = true) := by
      rintro ⟨hp, ha, hu⟩
      exact hnot ⟨hu, Or.inl ⟨hp, ha⟩⟩
    have h2 : ¬((p = 0 ∧ 1 ≤ a ∧ u = true) ∨ (1 ≤ p ∧ 1 ≤ a ∧ u = true)) := by
      rintro (⟨hp, ha, hu⟩ | ⟨hp, ha, hu⟩)
      · exact hnot ⟨hu, Or.inr (Or.inl ⟨hp, ha⟩)⟩
      · exact hnot ⟨hu, Or.inr (Or.inr ⟨hp, ha⟩)⟩
    simp only [reuse_stage]
    rw [if_neg h1, if_pos h2]
  · intro t pth c hmem
    by_cases h1 : 1 ≤ p ∧ a = 0 ∧ u = true
    · exact ⟨h1.2.2, h1.1, h1.2.1⟩
    · exfalso
      simp only [reuse_stage] at hmem
      rw [if_neg h1] at hmem
      by_cases h2 : ¬((p = 0 ∧ 1 ≤ a ∧ u = true) ∨ (1 ≤ p ∧ 1 ≤ a ∧ u = true))
      · rw [if_pos h2] at hmem
        simp at hmem
      · rw [if_neg h2] at hmem
        simp at hmem

/-- C1 witness: with one protocol, one attachment and reuse not permitted,
the candidate is rejected outright. -/
theorem reuse_attempted_only_for_permitted_shapes_witness :
    reuse_stage [demoConn] demoConn 1 1 false demoEnv = ([demoConn], [], none) :=
  (reuse_attempted_only_for_permitted_shapes [demoConn] demoConn 1 1 false demoEnv).1
    (by simp)

/-- C4: an inbound `HandshakeReuseAccept` (resp. problem report) whose thread
id differs from the stored `reuse_msg_id` leaves the record unchanged (in
particular `reuse_msg_state` is not set) and fails with an error. -/
theorem mismatched_thread_id_rejected (conn : ConnRecord) (thid : String)
    (h : metadata_get conn "reuse_msg_id" ≠ some thid) :
    (receive_reuse_accepted_message conn thid).1 = conn
    ∧ (receive_reuse_accepted_message conn thid).2.isSome = true
    ∧ (receive_problem_report conn thid).1 = conn
    ∧ (receive_problem_report conn thid).2.isSome = true := by
  simp [receive_reuse_accepted_message, receive_problem_report, h]

/-- C4 witness: stored id `abc`, inbound thread id `xyz`. -/
theorem mismatched_thread_id_rejected_witness :
    (receive_reuse_accepted_message demoConnWithReuse "xyz").1 = demoConnWithReuse
    ∧ (receive_reuse_accepted_message demoConnWithReuse "xyz").2.isSome = true
    ∧ (receive_problem_report demoConnWithReuse "xyz").1 = demoConnWithReuse
    ∧ (receive_problem_report demoConnWithReuse "xyz").2.isSome = true :=
  mismatched_thread_id_rejected demoConnWithReuse "xyz" (by decide)

/-- C6: evaluating `receive_reuse_message` at a store in which neither the
invitation-message-id lookup nor the sender-DID fallback finds a connection:
the handler sends nothing and raises no error, while the claim (and the
method docstring) requires a NoExistingConnection failure. -/
theorem receive_reuse_message_silent_when_no_connection :
    receive_reuse_message [] "reuse-thid-1" "invi-1" "sender-did-1" true = ([], none) := rfl

/-- C10: with auto-respond for credential offers not configured, both
credential-offer handlers receive the offer first — the new exchange record
is persisted — and only then fail with the auto-respond-disabled error, so
the record outlives the error. -/
theorem cred_offer_received_before_auto_respond_check
    (env : RIEnv) (conn : ConnRecord) (c1 c2 : List Nat)
    (h : env.settings.auto_respond_credential_offer = false) :
    process_cred_offer_v1 env conn c1
      = (env.new_cred_ex_id :: c1,
         [Event.received_offer_v1 env.new_cred_ex_id conn.connection_id],
         some (OOBError.autoRespondDisabled
           "Configuration sets auto_offer false: cannot respond automatically to credential offers"))
    ∧ process_cred_offer_v2 env conn c2
      = (env.new_cred_ex_id :: c2,
         [Event.received_offer_v2 env.new_cred_ex_id conn.connection_id],
         some (OOBError.autoRespondDisabled
           "Configuration sets auto_offer false: cannot respond automatically to credential offers")) := by
  simp [process_cred_offer_v1, process_cred_offer_v2, h]

/-- C10 witness: concrete environment with the flag off. -/
theorem cred_offer_received_before_auto_respond_check_witness :
    process_cred_offer_v1 demoEnv demoConn []
      = ([21], [Event.received_offer_v1 21 7],
         some (OOBError.autoRespondDisabled
           "Configuration sets auto_offer false: cannot respond automatically to credential offers"))
    ∧ process_cred_offer_v2 demoEnv demoConn []
      = ([21], [Event.received_offer_v2 21 7],
         some (OOBError.autoRespondDisabled
           "Configuration sets auto_offer false: cannot respond automatically to credential offers")) :=
  cred_offer_received_before_auto_respond_check demoEnv demoConn [] [] rfl

/-- Concrete create-invitation environment. -/
def demoCIEnv : CIEnv :=
  { settings := demoSettings
    public_did := some ⟨"PUBDID", "VERKEY"⟩
    new_connection_key := "NEWKEY"
    invi_msg_fresh_id := "invi-new-1"
    mediation_record := none
    base_mediation_record := none
    multitenant_active := false
    cred_offer_v1 := fun _ => none
    cred_offer_v2 := fun _ => none
    pres_req_v1 := fun _ => none
    pres_req_v2 := fun _ => none
    public_endpoint := fun _ => "http://pub" }

/-- C7 counterexample: with `public` and `multi_use` both set but neither
handshake protocols nor attachments supplied, `create_invitation` fails with
the invalid-shape error — not with a `configurationRejected` error as the
claim states. -/
theorem public_multi_use_empty_shape_counterexample :
    create_invitation demoCIEnv none none none true [] true none [] [] none
      = Except.error (OOBError.invalidInvitationShape
          "Invitation must include handshake protocols, request attachments, or both")
    ∧ is_configuration_rejected
        (create_invitation demoCIEnv none none none true [] true none [] [] none) = false := by
  exact ⟨rfl, rfl⟩

/-- C7 (amended): whenever at least one handshake protocol or attachment is
supplied, `CreateInvitation(public=true, multi_use=true, ..)` fails with the
configuration-rejected error regardless of every other argument; with
neither supplied the earlier shape check fails first. -/
theorem public_multi_use_rejected
    (env : CIEnv) (my_label my_endpoint : Option String) (auto_accept : Option Bool)
    (hs_protos : List HSProto) (conn_alias : Option String)
    (attachments : List AttachRef) (metadata : List (String × String))
    (mediation_id : Option String)
    (h : hs_protos ≠ [] ∨ attachments ≠ []) :
    create_invitation env my_label my_endpoint auto_accept true hs_protos true
      conn_alias attachments metadata mediation_id
      = Except.error (OOBError.configurationRejected
          "Cannot create public invitation with multi_use") := by
  have hshape : ¬(hs_protos = [] ∧ attachments = []) := by
    rintro ⟨h1, h2⟩
    rcases h with h | h
    · exact h h1
    · exact h h2
  simp only [create_invitation]
  rw [if_neg hshape]
  simp

/-- C7 witness: a public multi-use invitation with one handshake protocol. -/
theorem public_multi_use_rejected_witness :
    create_invitation demoCIEnv none none none true [HSProto.RFC23] true none [] [] none
      = Except.error (OOBError.configurationRejected
          "Cannot create public invitation with multi_use") :=
  public_multi_use_rejected demoCIEnv none none none [HSProto.RFC23] none [] [] none
    (Or.inl (by simp))

@[simp] theorem metadata_get_state_update (r : ConnRecord) (s k : String) :
    metadata_get { r with state := s } k = metadata_get r k := rfl

theorem both_deleted_id (r : ConnRecord) :
    metadata_get (metadata_delete (metadata_delete r "reuse_msg_id") "reuse_msg_state")
      "reuse_msg_id" = none := by
  rw [metadata_get_delete_ne _ _ _ (by decide)]
  exact metadata_get_delete_same _ _

theorem both_deleted_state (r : ConnRecord) :
    metadata_get (metadata_delete (metadata_delete r "reuse_msg_id") "reuse_msg_state")
      "reuse_msg_state" = none :=
  metadata_get_delete_same _ _

theorem deleted_id_keeps_state (r : ConnRecord) (v : String) :
    metadata_get (metadata_delete (metadata_set r "reuse_msg_state" v) "reuse_msg_id")
      "reuse_msg_state" = some v := by
  rw [metadata_get_delete_ne _ _ _ (by decide)]
  exact metadata_get_set_same _ _ _

theorem mem_update_chain3 {store : List ConnRecord} {cr r1 r2 r3 : ConnRecord}
    (hmem : cr ∈ store) (h1 : cr.connection_id = r1.connection_id)
    (h2 : r1.connection_id = r2.connection_id) (h3 : r2.connection_id = r3.connection_id) :
    r3 ∈ update_record (update_record (update_record store r1) r2) r3 :=
  mem_update_record_self (mem_update_record_self (mem_update_record_self hmem h1) h2) h3

/-- C5 (amended): once a reuse negotiation is resolved or abandoned, the
`reuse_msg_id` key is always gone; `reuse_msg_state` is also gone after an
`accepted` resolution and after a timeout, but after a `not_accepted`
resolution the stored record keeps `reuse_msg_state = "not_accepted"` —
only `reuse_msg_id` is deleted on that path. -/
theorem reuse_metadata_lifecycle
    (store : List ConnRecord) (cr : ConnRecord) (p a : Nat) (env : RIEnv)
    (hp : 1 ≤ p) (ha : a = 0) (hresp : env.responder_present = true)
    (hmem : cr ∈ store) :
    (env.peer_reuse_reply = some "accepted" →
      ∃ r4, (reuse_stage store cr p a true env).2.2 = some r4
        ∧ r4.connection_id = cr.connection_id
        ∧ metadata_get r4 "reuse_msg_id" = none
        ∧ metadata_get r4 "reuse_msg_state" = none
        ∧ r4 ∈ (reuse_stage store cr p a true env).1)
    ∧ (env.peer_reuse_reply = none →
      (reuse_stage store cr p a true env).2.2 = none
      ∧ ∃ r3, r3 ∈ (reuse_stage store cr p a true env).1
        ∧ r3.connection_id = cr.connection_id
        ∧ r3.state = "abandoned"
        ∧ metadata_get r3 "reuse_msg_id" = none
        ∧ metadata_get r3 "reuse_msg_state" = none)
    ∧ (env.peer_reuse_reply = some "not_accepted" →
      (reuse_stage store cr p a true env).2.2 = none
      ∧ ∃ r3, r3 ∈ (reuse_stage store cr p a true env).1
        ∧ r3.connection_id = cr.connection_id
        ∧ metadata_get r3 "reuse_msg_id" = none
        ∧ metadata_get r3 "reuse_msg_state" = some "not_accepted") := by
  subst ha
  refine ⟨?_, ?_, ?_⟩
  · intro hreply
    simp only [reuse_stage, hresp, hreply, hp, if_true, eq_self_iff_true, true_and,
      and_self, metadata_get_set_same, if_pos]
    rw [if_neg (by decide : ¬(some "accepted" : Option String) = some "initial")]
    simp only [metadata_get_delete_ne _ _ _ (by decide : ("reuse_msg_state" : String) ≠ "reuse_msg_id"),
      metadata_get_set_same]
    rw [if_neg (by decide : ¬(some "accepted" : Option String) = some "not_accepted")]
    exact ⟨_, rfl, by simp, both_deleted_id _, both_deleted_state _,
      mem_update_chain3 hmem (by simp) (by simp) (by simp)⟩
  · intro hreply
    simp only [reuse_stage, hresp, hreply, hp, if_true, eq_self_iff_true, true_and,
      and_self, metadata_get_set_same, if_pos]
    exact ⟨_, mem_update_chain3 hmem (by simp) (by simp) (by simp), by simp, rfl,
      both_deleted_id _, both_deleted_state _⟩
  · intro hreply
    simp only [reuse_stage, hresp, hreply, hp, if_true, eq_self_iff_true, true_and,
      and_self, metadata_get_set_same, if_pos]
    rw [if_neg (by decide : ¬(some "not_accepted" : Option String) = some "initial")]
    simp only [metadata_get_delete_ne _ _ _ (by decide : ("reuse_msg_state" : String) ≠ "reuse_msg_id"),
      metadata_get_set_same]
    rw [if_pos trivial]
    exact ⟨rfl, _, mem_update_chain3 hmem (by simp) (by simp) (by simp),
      by simp, metadata_get_delete_same _ _, deleted_id_keeps_state _ _⟩

/-- C5 witness: accepted resolution on a concrete store, both keys gone. -/
theorem reuse_metadata_lifecycle_witness :
    ∃ r4, (reuse_stage [demoConn] demoConn 1 0 true demoEnv).2.2 = some r4
      ∧ r4.connection_id = demoConn.connection_id
      ∧ metadata_get r4 "reuse_msg_id" = none
      ∧ metadata_get r4 "reuse_msg_state" = none
      ∧ r4 ∈ (reuse_stage [demoConn] demoConn 1 0 true demoEnv).1 :=
  (reuse_metadata_lifecycle [demoConn] demoConn 1 0 demoEnv (by decide) rfl rfl
    (List.mem_cons_self _ _)).1 rfl

/-- Environment in which the peer answers the reuse request with a problem
report (`reuse_msg_state` becomes `not_accepted` within the bound). -/
def demoEnvNotAccepted : RIEnv := { demoEnv with peer_reuse_reply := some "not_accepted" }

/-- C5 counterexample: after a full `receive_invitation` run whose reuse
negotiation resolves `not_accepted`, the stored candidate connection still
carries `reuse_msg_state = "not_accepted"` — the claim that both metadata
keys are deleted on every resolution is false on this path. -/
theorem not_accepted_leaves_reuse_msg_state_counterexample :
    metadata_get
      ((receive_invitation [demoConn] demoInvitation true none none none [] []
          demoEnvNotAccepted).store.headD demoConn) "reuse_msg_state"
      = some "not_accepted" := rfl

/-- The candidate record right after `create_handshake_reuse_message`:
`reuse_msg_id` set to the fresh message id, `reuse_msg_state` set `initial`. -/
def reuse_marked (cr : ConnRecord) (fresh : String) : ConnRecord :=
  metadata_set (metadata_set cr "reuse_msg_id" fresh) "reuse_msg_state" "initial"

/-- The candidate after the peer handler wrote `s` to `reuse_msg_state`. -/
def reuse_resolved (cr : ConnRecord) (fresh s : String) : ConnRecord :=
  metadata_set (reuse_marked cr fresh) "reuse_msg_state" s

/-- The candidate after the timeout fallback: both keys deleted, state
`abandoned`. -/
def reuse_abandoned (cr : ConnRecord) (fresh : String) : ConnRecord :=
  { metadata_delete (metadata_delete (reuse_marked cr fresh) "reuse_msg_id")
      "reuse_msg_state" with state := "abandoned" }

/-- The candidate returned on the accepted path: both keys deleted. -/
def reuse_cleared (cr : ConnRecord) (fresh s : String) : ConnRecord :=
  metadata_delete (metadata_delete (reuse_resolved cr fresh s) "reuse_msg_id")
    "reuse_msg_state"

theorem reuse_stage_timeout_eq (store : List ConnRecord) (cr : ConnRecord) (p : Nat)
    (env : RIEnv) (hp : 1 ≤ p) (hresp : env.responder_present = true)
    (hreply : env.peer_reuse_reply = none) :
    reuse_stage store cr p 0 true env
      = (update_record (update_record (update_record store
            (reuse_marked cr env.reuse_msg_fresh_id))
            (reuse_marked cr env.reuse_msg_fresh_id))
            (reuse_abandoned cr env.reuse_msg_fresh_id),
         [Event.sent_reuse env.reuse_msg_fresh_id cr.invitation_msg_id cr.connection_id],
         none) := by
  simp only [reuse_stage, hresp, hreply, hp, if_true, eq_self_iff_true, true_and, and_self,
    metadata_get_set_same, if_pos, reuse_marked, reuse_abandoned]

theorem reuse_stage_accepted_eq (store : List ConnRecord) (cr : ConnRecord) (p : Nat)
    (env : RIEnv) (hp : 1 ≤ p) (hresp : env.responder_present = true)
    (hreply : env.peer_reuse_reply = some "accepted") :
    reuse_stage store cr p 0 true env
      = (update_record (update_record (update_record store
            (reuse_marked cr env.reuse_msg_fresh_id))
            (reuse_resolved cr env.reuse_msg_fresh_id "accepted"))
            (reuse_cleared cr env.reuse_msg_fresh_id "accepted"),
         [Event.sent_reuse env.reuse_msg_fresh_id cr.invitation_msg_id cr.connection_id],
         some (reuse_cleared cr env.reuse_msg_fresh_id "accepted")) := by
  simp only [reuse_stage, hresp, hreply, hp, if_true, eq_self_iff_true, true_and, and_self,
    metadata_get_set_same, if_pos, reuse_marked, reuse_resolved, reuse_cleared]
  rw [if_neg (by decide : ¬(some "accepted" : Option String) = some "initial")]
  simp only [metadata_get_delete_ne _ _ _
    (by decide : ("reuse_msg_state" : String) ≠ "reuse_msg_id"), metadata_get_set_same]
  rw [if_neg (by decide : ¬(some "accepted" : Option String) = some "not_accepted")]

/-- C3: when no reuse-accept and no problem report arrives within the
15-unit bound, `receive_invitation` deletes both reuse metadata keys,
saves the candidate in state `abandoned`, does not propagate the timeout as
an error, and falls through to creating a new connection through the first
handshake strategy. -/
theorem reuse_timeout_abandons_and_creates_new
    (store : List ConnRecord) (r nrec : ConnRecord) (inv : Invitation)
    (sdid : String) (aa : Option Bool) (al med : Option String)
    (c1 c2 : List Nat) (env : RIEnv)
    (hsvc : inv.services = [OOBService.didRef sdid])
    (hfind : find_existing_connection store ⟨none⟩ ⟨some (split_colon_last sdid), none⟩
      = some r)
    (hatt : inv.requests_attach = [])
    (hproto : dedup_keep_first (inv.handshake_protocols.map didcomm_unqualify)
      = ["didexchange/1.0"])
    (hresp : env.responder_present = true)
    (hreply : env.peer_reuse_reply = none)
    (hdidx : env.didx_result = some nrec) :
    (receive_invitation store inv true aa al med c1 c2 env).result
      = Except.ok (some nrec)
    ∧ nrec ∈ (receive_invitation store inv true aa al med c1 c2 env).store
    ∧ ∃ r3, r3 ∈ (receive_invitation store inv true aa al med c1 c2 env).store
      ∧ r3.connection_id = r.connection_id
      ∧ r3.state = "abandoned"
      ∧ metadata_get r3 "reuse_msg_id" = none
      ∧ metadata_get r3 "reuse_msg_state" = none := by
  have hpne : inv.handshake_protocols ≠ [] := by
    intro h
    rw [h] at hproto
    simp [dedup_keep_first, dedup_keep_first.go] at hproto
  have hpe : inv.handshake_protocols.isEmpty = false := by
    cases h : inv.handshake_protocols with
    | nil => exact absurd h hpne
    | cons a l => rfl
  have hcond : (inv.requests_attach.isEmpty && inv.handshake_protocols.isEmpty) = false := by
    rw [hatt, hpe]
    rfl
  have hcalc : receive_invitation store inv true aa al med c1 c2 env
      = ⟨(update_record (update_record (update_record store
            (reuse_marked r env.reuse_msg_fresh_id))
            (reuse_marked r env.reuse_msg_fresh_id))
            (reuse_abandoned r env.reuse_msg_fresh_id)) ++ [nrec],
          [Event.sent_reuse env.reuse_msg_fresh_id r.invitation_msg_id r.connection_id]
            ++ [Event.called_didx inv.id (some (split_colon_last sdid)) aa al med],
          c1, c2, Except.ok (some nrec)⟩ := by
    simp only [receive_invitation, hsvc]
    rw [if_neg (by simp [hcond])]
    rw [hproto, hfind]
    simp only [List.map_cons, List.map_nil, HSProto.get, if_pos, eq_self_iff_true, if_true,
      List.length_cons, List.length_nil, hatt]
    rw [reuse_stage_timeout_eq store r _ env (by simp) hresp hreply]
    simp only [List.isEmpty_cons, handshake_loop, hdidx, attach_stage,
      Bool.false_eq_true, if_false]
  rw [hcalc]
  refine ⟨rfl, by simp, ?_⟩
  refine ⟨reuse_abandoned r env.reuse_msg_fresh_id, ?_, by simp [reuse_abandoned, reuse_marked],
    rfl, ?_, ?_⟩
  · exact List.mem_append_left _
      (mem_update_chain3 (find_existing_props hfind).1 (by simp [reuse_marked])
        (by simp) (by simp [reuse_abandoned, reuse_marked]))
  · exact both_deleted_id _
  · exact both_deleted_state _

/-- Environment in which no reuse reply arrives within the bound. -/
def demoEnvTimeout : RIEnv := { demoEnv with peer_reuse_reply := none }

/-- C3 witness: concrete store and invitation, timeout, DID-exchange creates
the new connection. -/
theorem reuse_timeout_abandons_and_creates_new_witness :
    (receive_invitation [demoConn] demoInvitation true none none none [] []
        demoEnvTimeout).result = Except.ok (some demoNewConn)
    ∧ demoNewConn ∈ (receive_invitation [demoConn] demoInvitation true none none none [] []
        demoEnvTimeout).store
    ∧ ∃ r3, r3 ∈ (receive_invitation [demoConn] demoInvitation true none none none [] []
        demoEnvTimeout).store
      ∧ r3.connection_id = demoConn.connection_id
      ∧ r3.state = "abandoned"
      ∧ metadata_get r3 "reuse_msg_id" = none
      ∧ metadata_get r3 "reuse_msg_state" = none :=
  reuse_timeout_abandons_and_creates_new [demoConn] demoConn demoNewConn demoInvitation
    "did:sov:PUBDID" none none none [] [] demoEnvTimeout rfl rfl rfl rfl rfl rfl rfl

/-- The record each handshake strategy manager returns in an environment
(spec-side helper for stating the dispatch order). -/
def strategy_result (env : RIEnv) : HSProto → Option ConnRecord
  | HSProto.RFC23 => env.didx_result
  | HSProto.RFC160 => env.connmgr_result

/-- Statement of the dispatch contract in the words of the spec: the record
of the first declared protocol, in order, whose strategy yields one. -/
def first_strategy_result (env : RIEnv) (protos : List (Option HSProto)) :
    Option ConnRecord :=
  (protos.filterMap (fun op => op.bind (strategy_result env))).head?

theorem handshake_loop_conn_eq_first (env : RIEnv) (invitation_id : String)
    (public_did : Option String) (auto_accept : Option Bool)
    (conn_alias mediation_id : Option String) (service : ServiceMessage)
    (protos : List (Option HSProto)) :
    (handshake_loop env invitation_id public_did auto_accept conn_alias mediation_id
        service protos).2.1 = first_strategy_result env protos := by
  induction protos generalizing service with
  | nil => rfl
  | cons proto rest ih =>
    match proto with
    | none =>
      simp only [handshake_loop, first_strategy_result, List.filterMap_cons, Option.bind]
      exact ih service
    | some HSProto.RFC23 =>
      simp only [handshake_loop, first_strategy_result, List.filterMap_cons]
      cases h : env.didx_result with
      | some rec =>
        simp [h, strategy_result]
      | none =>
        simp only [h, Option.bind, strategy_result]
        exact ih service
    | some HSProto.RFC160 =>
      simp only [handshake_loop, first_strategy_result, List.filterMap_cons]
      cases h : env.connmgr_result with
      | some rec =>
        simp [h, strategy_result]
      | none =>
        simp only [h, Option.bind, strategy_result]
        exact ih _

theorem handshake_loop_no_connmgr_event (env : RIEnv) (invitation_id : String)
    (public_did : Option String) (auto_accept : Option Bool)
    (conn_alias mediation_id : Option String) (service : ServiceMessage)
    (protos : List (Option HSProto)) (h : (some HSProto.RFC160) ∉ protos)
    (iid : String) (ks rs : List String) (pd2 : Option String) (aa2 : Option Bool)
    (al2 med2 : Option String) :
    Event.called_connmgr iid ks rs pd2 aa2 al2 med2
      ∉ (handshake_loop env invitation_id public_did auto_accept conn_alias mediation_id
          service protos).2.2 := by
  induction protos generalizing service with
  | nil => simp [handshake_loop]
  | cons proto rest ih =>
    have hproto : proto ≠ some HSProto.RFC160 := fun he => h (he ▸ List.mem_cons_self _ _)
    have hrest : (some HSProto.RFC160) ∉ rest := fun he => h (List.mem_cons_of_mem _ he)
    match proto with
    | none =>
      simp only [handshake_loop]
      exact ih service hrest
    | some HSProto.RFC23 =>
      simp only [handshake_loop]
      cases hd : env.didx_result with
      | some rec => simp
      | none =>
        simp only [List.mem_cons, not_or]
        exact ⟨by simp, ih service hrest⟩
    | some HSProto.RFC160 => exact absurd rfl hproto

theorem handshake_loop_translates (env : RIEnv) (invitation_id : String)
    (public_did : Option String) (auto_accept : Option Bool)
    (conn_alias mediation_id : Option String) (service : ServiceMessage)
    (protos : List (Option HSProto))
    (hcount : protos.count (some HSProto.RFC160) ≤ 1)
    (iid : String) (ks rs : List String) (pd2 : Option String) (aa2 : Option Bool)
    (al2 med2 : Option String)
    (hmem : Event.called_connmgr iid ks rs pd2 aa2 al2 med2
      ∈ (handshake_loop env invitation_id public_did auto_accept conn_alias mediation_id
          service protos).2.2) :
    ks = service.recipient_keys.map didkey_from_did
    ∧ rs = service.routing_keys.map didkey_from_did := by
  induction protos generalizing service with
  | nil => simp [handshake_loop] at hmem
  | cons proto rest ih =>
    match proto with
    | none =>
      simp only [handshake_loop] at hmem
      exact ih service (by simpa using Nat.le_of_succ_le_succ (by simpa [List.count_cons] using hcount)) hmem
    | some HSProto.RFC23 =>
      simp only [handshake_loop] at hmem
      cases hd : env.didx_result with
      | some rec =>
        rw [hd] at hmem
        simp at hmem
      | none =>
        rw [hd] at hmem
        simp only [List.mem_cons] at hmem
        rcases hmem with he | hmem
        · exact absurd he (by simp)
        · exact ih service (by simpa [List.count_cons] using hcount) hmem
    | some HSProto.RFC160 =>
      have hzero : rest.count (some HSProto.RFC160) = 0 := by
        have := hcount
        simp [List.count_cons] at this
        omega
      have hnone : (some HSProto.RFC160) ∉ rest := List.count_eq_zero.mp hzero
      simp only [handshake_loop] at hmem
      cases hd : env.connmgr_result with
      | some rec =>
        rw [hd] at hmem
        simp only [List.mem_cons, List.not_mem_nil, or_false] at hmem
        have := Event.called_connmgr.injEq iid ks rs pd2 aa2 al2 med2 invitation_id
          (service.recipient_keys.map didkey_from_did)
          (service.routing_keys.map didkey_from_did) public_did auto_accept conn_alias
          mediation_id
        rw [this] at hmem
        exact ⟨hmem.2.1, hmem.2.2.1⟩
      | none =>
        rw [hd] at hmem
        simp only [List.mem_cons] at hmem
        rcases hmem with he | hmem
        · have := Event.called_connmgr.injEq iid ks rs pd2 aa2 al2 med2 invitation_id
            (service.recipient_keys.map didkey_from_did)
            (service.routing_keys.map didkey_from_did) public_did auto_accept conn_alias
            mediation_id
          rw [this] at he
          exact ⟨he.2.1, he.2.2.1⟩
        · exact absurd hmem (handshake_loop_no_connmgr_event env invitation_id public_did
            auto_accept conn_alias mediation_id _ rest hnone iid ks rs pd2 aa2 al2 med2)

/-- C9: (i) the new-connection dispatcher returns the record of the first
declared protocol, in invitation order, whose strategy yields one; (ii) the
legacy-connection (`RFC160`) strategy is always invoked with the service
recipient and routing keys translated from did:key identifiers back to raw
verification keys; (iii) `receive_invitation` on an invitation requiring a
new connection returns exactly that first strategy result. -/
theorem handshake_protocols_tried_in_order :
    (∀ env invitation_id public_did auto_accept conn_alias mediation_id service
        (protos : List (Option HSProto)),
      (handshake_loop env invitation_id public_did auto_accept conn_alias mediation_id
          service protos).2.1 = first_strategy_result env protos)
    ∧ (∀ env invitation_id public_did auto_accept conn_alias mediation_id service
        (protos : List (Option HSProto)),
        protos.count (some HSProto.RFC160) ≤ 1 →
        ∀ iid ks rs pd2 aa2 al2 med2,
          Event.called_connmgr iid ks rs pd2 aa2 al2 med2
            ∈ (handshake_loop env invitation_id public_did auto_accept conn_alias
                mediation_id service protos).2.2 →
          ks = service.recipient_keys.map didkey_from_did
          ∧ rs = service.routing_keys.map didkey_from_did)
    ∧ (∀ store inv svc use aa al med c1 c2 env,
        inv.services = [OOBService.inline svc] →
        inv.requests_attach = [] →
        inv.handshake_protocols ≠ [] →
        (receive_invitation store inv use aa al med c1 c2 env).result
          = Except.ok (first_strategy_result env
              ((dedup_keep_first (inv.handshake_protocols.map didcomm_unqualify)).map
                HSProto.get))) := by
  refine ⟨fun env iid pd aa al med svc protos =>
      handshake_loop_conn_eq_first env iid pd aa al med svc protos,
    fun env iid pd aa al med svc protos h iid2 ks rs pd2 aa2 al2 med2 hmem =>
      handshake_loop_translates env iid pd aa al med svc protos h iid2 ks rs pd2 aa2 al2
        med2 hmem, ?_⟩
  intro store inv svc use aa al med c1 c2 env hsvc hatt hpne
  have hpe : inv.handshake_protocols.isEmpty = false := by
    cases h : inv.handshake_protocols with
    | nil => exact absurd h hpne
    | cons a l => rfl
  have hcond : (inv.requests_attach.isEmpty && inv.handshake_protocols.isEmpty) = false := by
    rw [hatt, hpe]
    rfl
  have hne : ((dedup_keep_first (inv.handshake_protocols.map didcomm_unqualify)).map
      HSProto.get) ≠ [] := by
    simp only [ne_eq, List.map_eq_nil_iff, dedup_keep_first_eq_nil_iff]
    exact hpne
  have hpe2 : ((dedup_keep_first (inv.handshake_protocols.map didcomm_unqualify)).map
      HSProto.get).isEmpty = false := by
    cases h : (dedup_keep_first (inv.handshake_protocols.map didcomm_unqualify)).map
        HSProto.get with
    | nil => exact absurd h hne
    | cons a l => rfl
  simp only [receive_invitation, hsvc]
  rw [if_neg (by simp [hcond])]
  simp only [hatt, hpe2, Bool.false_eq_true, if_false, attach_stage]
  rw [handshake_loop_conn_eq_first]

/-- An inline service block as carried by a pairwise invitation. -/
def demoInlineService : ServiceMessage :=
  { recipient_keys := ["did:key:zRK1"]
    routing_keys := []
    service_endpoint := "http://endpoint" }

/-- A pairwise invitation with an inline service and one protocol. -/
def demoInlineInvitation : Invitation :=
  { id := "invmsg-2"
    handshake_protocols := ["https://didcomm.org/didexchange/1.0"]
    requests_attach := []
    services := [OOBService.inline demoInlineService] }

/-- C9 witness: concrete inline invitation dispatched to DID-exchange. -/
theorem handshake_protocols_tried_in_order_witness :
    (receive_invitation [] demoInlineInvitation true none none none [] [] demoEnv).result
      = Except.ok (first_strategy_result demoEnv
          ((dedup_keep_first (demoInlineInvitation.handshake_protocols.map
              didcomm_unqualify)).map HSProto.get)) :=
  handshake_protocols_tried_in_order.2.2 [] demoInlineInvitation demoInlineService true
    none none none [] [] demoEnv rfl rfl (by simp [demoInlineInvitation])

theorem reuse_stage_attach_pos (store : List ConnRecord) (cr : ConnRecord)
    (p c : Nat) (u : Bool) (env : RIEnv) (hc : 1 ≤ c) :
    reuse_stage store cr p c u env
      = (if u = true then (store, [], some cr) else (store, [], none)) := by
  simp only [reuse_stage]
  rw [if_neg (fun h => absurd h.2.1 (by omega))]
  by_cases hu : u = true
  · have hD : (p = 0 ∧ 1 ≤ c ∧ u = true) ∨ (1 ≤ p ∧ 1 ≤ c ∧ u = true) := by
      rcases Nat.eq_zero_or_pos p with hp | hp
      · exact Or.inl ⟨hp, hc, hu⟩
      · exact Or.inr ⟨hp, hc, hu⟩
    rw [if_neg (not_not_intro hD), if_pos hu]
  · have hn : ¬((p = 0 ∧ 1 ≤ c ∧ u = true) ∨ (1 ≤ p ∧ 1 ≤ c ∧ u = true)) := by
      rintro (⟨_, _, h⟩ | ⟨_, _, h⟩) <;> exact hu h
    rw [if_pos hn, if_neg hu]

theorem reuse_stage_attach_congr (store : List ConnRecord) (cr : ConnRecord)
    (p a b : Nat) (u : Bool) (env : RIEnv) (ha : 1 ≤ a) (hb : 1 ≤ b) :
    reuse_stage store cr p a u env = reuse_stage store cr p b u env := by
  rw [reuse_stage_attach_pos store cr p a u env ha,
    reuse_stage_attach_pos store cr p b u env hb]

theorem attach_stage_first_only (store : List ConnRecord) (events : List Event)
    (cred_ex_v1 cred_ex_v2 : List Nat) (h : ReqAttach) (rest : List ReqAttach)
    (conn_rec : Option ConnRecord) (auto_accept : Option Bool) (env : RIEnv) :
    attach_stage store events cred_ex_v1 cred_ex_v2 (h :: rest) conn_rec auto_accept env
      = attach_stage store events cred_ex_v1 cred_ex_v2 [h] conn_rec auto_accept env := by
  cases conn_rec <;> rfl

/-- Whether an event is an outbound credential request. -/
def is_cred_request_event : Event → Bool
  | Event.sent_cred_request_v1 _ => true
  | Event.sent_cred_request_v2 _ => true
  | _ => false

theorem handshake_loop_events_no_cred_request (env : RIEnv) (invitation_id : String)
    (public_did : Option String) (auto_accept : Option Bool)
    (conn_alias mediation_id : Option String) (service : ServiceMessage)
    (protos : List (Option HSProto)) :
    ∀ e ∈ (handshake_loop env invitation_id public_did auto_accept conn_alias mediation_id
        service protos).2.2, is_cred_request_event e = false := by
  induction protos generalizing service with
  | nil => simp [handshake_loop]
  | cons proto rest ih =>
    match proto with
    | none =>
      simp only [handshake_loop]
      exact ih service
    | some HSProto.RFC23 =>
      simp only [handshake_loop]
      cases hd : env.didx_result with
      | some rec => simp [is_cred_request_event]
      | none =>
        intro e he
        rcases List.mem_cons.mp he with he | he
        · rw [he]; rfl
        · exact ih service e he
    | some HSProto.RFC160 =>
      simp only [handshake_loop]
      cases hd : env.connmgr_result with
      | some rec => simp [is_cred_request_event]
      | none =>
        intro e he
        rcases List.mem_cons.mp he with he | he
        · rw [he]; rfl
        · exact ih _ e he

/-- C8: (i) `receive_invitation` only ever processes the first attachment of
an invitation — every receipt behaves exactly as if the invitation carried
only its first attachment; (ii) on an invitation whose first attachment has
unqualified type `CREDENTIAL_OFFER`, with auto-respond for credential offers
not configured, the receipt fails with the auto-respond-disabled error after
receiving the offer, and no credential request is sent. -/
theorem cred_offer_auto_respond_disabled :
    (∀ store (inv : Invitation) (h : ReqAttach) (rest : List ReqAttach) use aa al med
        c1 c2 env,
      receive_invitation store { inv with requests_attach := h :: rest } use aa al med
        c1 c2 env
      = receive_invitation store { inv with requests_attach := [h] } use aa al med
        c1 c2 env)
    ∧ (∀ store (inv : Invitation) svc atype use aa al med c1 c2 env nrec,
        inv.services = [OOBService.inline svc] →
        inv.requests_attach = [ReqAttach.proper true atype] →
        didcomm_unqualify atype = CREDENTIAL_OFFER →
        inv.handshake_protocols ≠ [] →
        first_strategy_result env ((dedup_keep_first (inv.handshake_protocols.map
          didcomm_unqualify)).map HSProto.get) = some nrec →
        env.settings.auto_respond_credential_offer = false →
        (receive_invitation store inv use aa al med c1 c2 env).result
          = Except.error (OOBError.autoRespondDisabled
              "Configuration sets auto_offer false: cannot respond automatically to credential offers")
        ∧ ∀ e ∈ (receive_invitation store inv use aa al med c1 c2 env).events,
            is_cred_request_event e = false) := by
  constructor
  · intro store inv h rest use aa al med c1 c2 env
    obtain ⟨iid, hps, ra, sv⟩ := inv
    rcases sv with _ | ⟨s, _ | ⟨s2, tl⟩⟩
    · rfl
    · simp only [receive_invitation, List.isEmpty_cons, Bool.false_and, Bool.false_eq_true,
        if_false]
      rcases s with svc | d
      · dsimp only
        generalize hunq :
          (dedup_keep_first (List.map didcomm_unqualify hps)).map HSProto.get = unq
        cases he : unq.isEmpty with
        | true => rfl
        | false =>
          rw [if_neg (by simp : ¬(false = true)), if_neg (by simp : ¬(false = true)),
            attach_stage_first_only]
      · dsimp only
        generalize hunq :
          (dedup_keep_first (List.map didcomm_unqualify hps)).map HSProto.get = unq
        cases hc : find_existing_connection store ⟨none⟩ ⟨some (split_colon_last d), none⟩ with
        | none =>
          simp only [hc]
          cases he : unq.isEmpty with
          | true => rfl
          | false =>
            rw [if_neg (by simp : ¬(false = true)), if_neg (by simp : ¬(false = true)),
              attach_stage_first_only]
        | some cr =>
          simp only [hc]
          rw [reuse_stage_attach_congr store cr unq.length ((h :: rest).length)
            ([h].length) use env (by simp) (by simp)]
          rcases h1 : reuse_stage store cr unq.length ([h].length) use env with
            ⟨ts, te, tc⟩
          rcases tc with _ | cr2
          · cases he : unq.isEmpty with
            | true => rfl
            | false =>
              rw [if_neg (by simp : ¬(false = true)),
                if_neg (by simp : ¬(false = true)), attach_stage_first_only]
          · exact attach_stage_first_only _ _ _ _ _ _ _ _ _
    · rfl
  · intro store inv svc atype use aa al med c1 c2 env nrec hsvc hatt htype hpne hfirst hoff
    have hpe : inv.handshake_protocols.isEmpty = false := by
      cases h : inv.handshake_protocols with
      | nil => exact absurd h hpne
      | cons a l => rfl
    have hne : ((dedup_keep_first (inv.handshake_protocols.map didcomm_unqualify)).map
        HSProto.get) ≠ [] := by
      simp only [ne_eq, List.map_eq_nil_iff, dedup_keep_first_eq_nil_iff]
      exact hpne
    have hpe2 : ((dedup_keep_first (inv.handshake_protocols.map didcomm_unqualify)).map
        HSProto.get).isEmpty = false := by
      cases h : (dedup_keep_first (inv.handshake_protocols.map didcomm_unqualify)).map
          HSProto.get with
      | nil => exact absurd h hne
      | cons a l => rfl
    have hcond : (inv.requests_attach.isEmpty && inv.handshake_protocols.isEmpty)
        = false := by
      rw [hatt]
      rfl
    have hred : receive_invitation store inv use aa al med c1 c2 env
        = attach_stage (store ++ [nrec])
            ([] ++ (handshake_loop env inv.id none aa al med svc
              ((dedup_keep_first (inv.handshake_protocols.map didcomm_unqualify)).map
                HSProto.get)).2.2)
            c1 c2 [ReqAttach.proper true atype] (some nrec) aa env := by
      simp only [receive_invitation, hsvc]
      rw [if_neg (by simp [hcond])]
      simp only [hatt, hpe2, Bool.false_eq_true, if_false]
      rw [handshake_loop_conn_eq_first, hfirst]
    rw [hred]
    simp only [attach_stage, eq_self_iff_true, if_true, if_pos]
    rw [htype]
    rw [if_neg (by decide : ¬CREDENTIAL_OFFER = PRESENTATION_REQUEST)]
    rw [if_neg (by decide : ¬CREDENTIAL_OFFER = PRES_20_REQUEST)]
    rw [if_pos (rfl : CREDENTIAL_OFFER = CREDENTIAL_OFFER)]
    simp only [process_cred_offer_v1, hoff, Bool.false_eq_true, if_false]
    refine ⟨trivial, ?_⟩
    intro e he
    simp only [List.nil_append, List.mem_append, List.mem_cons, List.not_mem_nil,
      or_false] at he
    rcases he with he | he
    · exact handshake_loop_events_no_cred_request env inv.id none aa al med svc _ e he
    · rw [he]
      rfl

/-- An invitation carrying a v1 credential-offer attachment. -/
def demoCredOfferInvitation : Invitation :=
  { id := "invmsg-3"
    handshake_protocols := ["https://didcomm.org/didexchange/1.0"]
    requests_attach :=
      [ReqAttach.proper true "https://didcomm.org/issue-credential/1.0/offer-credential"]
    services := [OOBService.inline demoInlineService] }

/-- C8 witness: concrete credential-offer invitation, auto-respond off. -/
theorem cred_offer_auto_respond_disabled_witness :
    (receive_invitation [] demoCredOfferInvitation true none none none [] []
        demoEnv).result
      = Except.error (OOBError.autoRespondDisabled
          "Configuration sets auto_offer false: cannot respond automatically to credential offers")
    ∧ ∀ e ∈ (receive_invitation [] demoCredOfferInvitation true none none none [] []
        demoEnv).events, is_cred_request_event e = false :=
  cred_offer_auto_respond_disabled.2 [] demoCredOfferInvitation demoInlineService
    "https://didcomm.org/issue-credential/1.0/offer-credential" true none none none [] []
    demoEnv demoNewConn rfl rfl rfl (by simp [demoCredOfferInvitation]) rfl rfl

theorem receive_invitation_accepted_eq
    (store : List ConnRecord) (r : ConnRecord) (inv : Invitation) (sdid : String)
    (aa : Option Bool) (al med : Option String) (c1 c2 : List Nat) (env : RIEnv)
    (hsvc : inv.services = [OOBService.didRef sdid])
    (hfind : find_existing_connection store ⟨none⟩ ⟨some (split_colon_last sdid), none⟩
      = some r)
    (hatt : inv.requests_attach = [])
    (hpne : inv.handshake_protocols ≠ [])
    (hresp : env.responder_present = true)
    (hreply : env.peer_reuse_reply = some "accepted") :
    receive_invitation store inv true aa al med c1 c2 env
      = ⟨update_record (update_record (update_record store
            (reuse_marked r env.reuse_msg_fresh_id))
            (reuse_resolved r env.reuse_msg_fresh_id "accepted"))
            (reuse_cleared r env.reuse_msg_fresh_id "accepted"),
          [Event.sent_reuse env.reuse_msg_fresh_id r.invitation_msg_id r.connection_id],
          c1, c2,
          Except.ok (some (reuse_cleared r env.reuse_msg_fresh_id "accepted"))⟩ := by
  have hpe : inv.handshake_protocols.isEmpty = false := by
    cases h : inv.handshake_protocols with
    | nil => exact absurd h hpne
    | cons a l => rfl
  have hcond : (inv.requests_attach.isEmpty && inv.handshake_protocols.isEmpty)
      = false := by
    rw [hatt, hpe]
    rfl
  have hne : ((dedup_keep_first (inv.handshake_protocols.map didcomm_unqualify)).map
      HSProto.get) ≠ [] := by
    simp only [ne_eq, List.map_eq_nil_iff, dedup_keep_first_eq_nil_iff]
    exact hpne
  have hlen : 1 ≤ ((dedup_keep_first (inv.handshake_protocols.map didcomm_unqualify)).map
      HSProto.get).length := List.length_pos.mpr hne
  simp only [receive_invitation, hsvc]
  rw [if_neg (by simp [hcond])]
  rw [hfind]
  simp only [hatt, List.length_nil]
  rw [reuse_stage_accepted_eq store r _ env hlen hresp hreply]
  simp only [attach_stage]

/-- C2: with an active connection already bound to the invitation public
DID, two receipts of invitations from that DID with reuse permitted and no
attachments, each resolving `accepted`, create no new connection record
(the stored connection ids are unchanged) and both receipts return the same
connection id as the existing candidate. -/
theorem reuse_idempotent_two_receipts
    (store : List ConnRecord) (r : ConnRecord) (inv : Invitation) (sdid : String)
    (aa : Option Bool) (al med : Option String) (c1 c2 c3 c4 : List Nat)
    (env1 env2 : RIEnv)
    (hnd : (store.map ConnRecord.connection_id).Nodup)
    (hsvc : inv.services = [OOBService.didRef sdid])
    (hfind : find_existing_connection store ⟨none⟩ ⟨some (split_colon_last sdid), none⟩
      = some r)
    (hatt : inv.requests_attach = [])
    (hpne : inv.handshake_protocols ≠ [])
    (hresp1 : env1.responder_present = true)
    (hreply1 : env1.peer_reuse_reply = some "accepted")
    (hresp2 : env2.responder_present = true)
    (hreply2 : env2.peer_reuse_reply = some "accepted") :
    ∃ ra rb,
      (receive_invitation store inv true aa al med c1 c2 env1).result
        = Except.ok (some ra)
      ∧ (receive_invitation (receive_invitation store inv true aa al med c1 c2 env1).store
          inv true aa al med c3 c4 env2).result = Except.ok (some rb)
      ∧ ra.connection_id = r.connection_id
      ∧ rb.connection_id = r.connection_id
      ∧ ((receive_invitation (receive_invitation store inv true aa al med c1 c2 env1).store
          inv true aa al med c3 c4 env2).store).map ConnRecord.connection_id
        = store.map ConnRecord.connection_id := by
  have h1 := receive_invitation_accepted_eq store r inv sdid aa al med c1 c2 env1
    hsvc hfind hatt hpne hresp1 hreply1
  have hfm : find_existing_connection
      (update_record store (reuse_marked r env1.reuse_msg_fresh_id)) ⟨none⟩
      ⟨some (split_colon_last sdid), none⟩ = some (reuse_marked r env1.reuse_msg_fresh_id) :=
    find_existing_update store _ _ r _ hnd hfind (by simp [reuse_marked])
      (by simp [reuse_marked]) (by simp [reuse_marked]) (by simp [reuse_marked])
      (by simp [reuse_marked])
  have hnd1 : ((update_record store (reuse_marked r env1.reuse_msg_fresh_id)).map
      ConnRecord.connection_id).Nodup := by
    rw [update_record_map_id]
    exact hnd
  have hfr : find_existing_connection
      (update_record (update_record store (reuse_marked r env1.reuse_msg_fresh_id))
        (reuse_resolved r env1.reuse_msg_fresh_id "accepted")) ⟨none⟩
      ⟨some (split_colon_last sdid), none⟩
      = some (reuse_resolved r env1.reuse_msg_fresh_id "accepted") :=
    find_existing_update _ _ _ _ _ hnd1 hfm (by simp [reuse_resolved])
      (by simp [reuse_resolved, reuse_marked]) (by simp [reuse_resolved, reuse_marked])
      (by simp [reuse_resolved, reuse_marked]) (by simp [reuse_resolved, reuse_marked])
  have hnd2 : ((update_record (update_record store
      (reuse_marked r env1.reuse_msg_fresh_id))
      (reuse_resolved r env1.reuse_msg_fresh_id "accepted")).map
      ConnRecord.connection_id).Nodup := by
    rw [update_record_map_id, update_record_map_id]
    exact hnd
  have hfc : find_existing_connection
      (update_record (update_record (update_record store
        (reuse_marked r env1.reuse_msg_fresh_id))
        (reuse_resolved r env1.reuse_msg_fresh_id "accepted"))
        (reuse_cleared r env1.reuse_msg_fresh_id "accepted")) ⟨none⟩
      ⟨some (split_colon_last sdid), none⟩
      = some (reuse_cleared r env1.reuse_msg_fresh_id "accepted") :=
    find_existing_update _ _ _ _ _ hnd2 hfr (by simp [reuse_cleared])
      (by simp [reuse_cleared, reuse_resolved, reuse_marked])
      (by simp [reuse_cleared, reuse_resolved, reuse_marked])
      (by simp [reuse_cleared, reuse_resolved, reuse_marked])
      (by simp [reuse_cleared, reuse_resolved, reuse_marked])
  have h2 := receive_invitation_accepted_eq
    (update_record (update_record (update_record store
      (reuse_marked r env1.reuse_msg_fresh_id))
      (reuse_resolved r env1.reuse_msg_fresh_id "accepted"))
      (reuse_cleared r env1.reuse_msg_fresh_id "accepted"))
    (reuse_cleared r env1.reuse_msg_fresh_id "accepted") inv sdid aa al med c3 c4 env2
    hsvc hfc hatt hpne hresp2 hreply2
  refine ⟨reuse_cleared r env1.reuse_msg_fresh_id "accepted",
    reuse_cleared (reuse_cleared r env1.reuse_msg_fresh_id "accepted")
      env2.reuse_msg_fresh_id "accepted", ?_, ?_, ?_, ?_, ?_⟩
  · rw [h1]
  · rw [h1]
    rw [h2]
  · simp [reuse_cleared, reuse_resolved, reuse_marked]
  · simp [reuse_cleared, reuse_resolved, reuse_marked]
  · rw [h1]
    rw [h2]
    simp [update_record_map_id]

/-- C2 witness: two consecutive receipts on a concrete store, both accepted. -/
theorem reuse_idempotent_two_receipts_witness :
    ∃ ra rb,
      (receive_invitation [demoConn] demoInvitation true none none none [] []
          demoEnv).result = Except.ok (some ra)
      ∧ (receive_invitation
          (receive_invitation [demoConn] demoInvitation true none none none [] []
            demoEnv).store demoInvitation true none none none [] [] demoEnv).result
        = Except.ok (some rb)
      ∧ ra.connection_id = demoConn.connection_id
      ∧ rb.connection_id = demoConn.connection_id
      ∧ ((receive_invitation
          (receive_invitation [demoConn] demoInvitation true none none none [] []
            demoEnv).store demoInvitation true none none none [] [] demoEnv).store).map
          ConnRecord.connection_id
        = [demoConn].map ConnRecord.connection_id :=
  reuse_idempotent_two_receipts [demoConn] demoConn demoInvitation "did:sov:PUBDID"
    none none none [] [] [] [] demoEnv demoEnv (by decide) rfl rfl rfl
    (by simp [demoInvitation]) rfl rfl rfl rfl

end Aries
